import Mathlib

/-!
Verification of the ajson `Value` component (src/value.rs).

The repository file `src/value.rs` defines a six-variant JSON value model
whose composite variants hold raw JSON text spans, with conversions that
either decode directly or delegate to two external collaborators: a
number-text component (`Number`) and a lazy span scanner (`Getter`).
Those two collaborators are outside the excerpt, so they are represented
here abstractly: `Number` stores its raw literal text (as the spec
describes), and every operation the `Value` code consumes from either
collaborator is a field of the `Externals` record, over which the
theorems quantify.  The type `f64` is likewise abstract: the `Value` code
only ever produces the literals `0.0` and `1.0` on its own, so the
embedding carries a type parameter `F64` with designated elements for the
two literals and an abstract boolean equality test (the IEEE fact that
`0.0 == 0.0` holds is taken as a hypothesis where it is needed).
-/

/-- Modelled from the spec: the external `Number` component
(construct-from-bytes, `as_str` returning the original literal form) is
not part of the excerpt.  Per the spec it stores the raw text of the
numeric literal; the bytes are carried by the `String` that holds them,
since every construction site in `value.rs` passes the bytes of a
`String`.  Its numeric decodings `to_f64` / `to_u64` / `to_i64` are left
fully abstract, as fields of `Externals` below. -/
structure Number where
  raw : String
deriving DecidableEq

/-- Modelled from the spec: `Number::from(bytes)` stores the literal text. -/
def Number.fromBytes (s : String) : Number := ⟨s⟩

/-- Modelled from the spec: `Number::as_str` returns the original literal form. -/
def Number.as_str (n : Number) : String := n.raw

/-- UTF-8 encoding of one character as its list of byte values. -/
def utf8EncodeCharBytes (c : Char) : List Nat :=
  let n := c.toNat
  if n < 128 then [n]
  else if n < 2048 then [192 + n / 64, 128 + n % 64]
  else if n < 65536 then [224 + n / 4096, 128 + (n / 64) % 64, 128 + n % 64]
  else [240 + n / 262144, 128 + (n / 4096) % 64, 128 + (n / 64) % 64, 128 + n % 64]

/-- Raw bytes of a string, as Rust `str::as_bytes` yields them (UTF-8). -/
def strBytes (s : String) : List Nat :=
  (s.data.map utf8EncodeCharBytes).flatten

/-- Alias for the builtin string type, for use inside the `Value`
namespace, where the bare name would resolve to the `Value.String`
constructor. -/
abbrev Str := String

/-- Alias for `Number`, for use inside the `Value` namespace, where the
bare name would resolve to the `Value.Number` constructor. -/
abbrev NumberHandle := Number

/-- The `Value` enum of `src/value.rs`: a closed sum of six JSON kinds.
`Object` and `Array` hold the raw JSON text span of the construct. -/
inductive Value where
  | String : String → Value
  | Number : Number → Value
  | Object : String → Value
  | Array : String → Value
  | Boolean : Bool → Value
  | Null : Value
deriving DecidableEq

/-- Modelled from the spec: the operations that `value.rs` consumes from
its external collaborators.  `num_to_f64` / `num_to_u64` / `num_to_i64`
are the numeric decodings of the `Number` component; `f64_lit_zero` and
`f64_lit_one` model the floating-point literals `0.0` and `1.0` appearing
in the source, with `f64_beq` modelling the `f64` equality operator;
`getter_get s v` models `Getter::from_str(s).get_by_utf8(v)`,
`getter_to_vec s` models `Getter::from_str(s).to_vec()`, and
`getter_to_object s` models `Getter::from_str(s).to_object()` (the
mapping is represented as an association list). -/
structure Externals (F64 : Type) where
  num_to_f64 : Number → F64
  num_to_u64 : Number → Nat
  num_to_i64 : Number → Int
  f64_lit_zero : F64
  f64_lit_one : F64
  f64_beq : F64 → F64 → Bool
  getter_get : String → List Nat → Option Value
  getter_to_vec : String → List Value
  getter_to_object : String → List (String × Value)

/-- Embeds `Value::get_by_utf8` (src/value.rs lines 56-61): composite
variants delegate to a `Getter` over the stored span, all others yield
`None`. -/
def Value.get_by_utf8 {F64 : Type} (E : Externals F64) (val : Value)
    (v : List Nat) : Option Value :=
  match val with
  | Value.Array s => E.getter_get s v
  | Value.Object s => E.getter_get s v
  | _ => none

/-- Embeds `Value::get` (src/value.rs lines 51-53): forwards the raw
bytes of the path to `get_by_utf8`. -/
def Value.get {F64 : Type} (E : Externals F64) (val : Value)
    (path : Str) : Option Value :=
  Value.get_by_utf8 E val (strBytes path)

/-- Embeds `Value::is_string`. -/
def Value.is_string : Value → Bool
  | Value.String _ => true
  | _ => false

/-- Embeds `Value::is_number`. -/
def Value.is_number : Value → Bool
  | Value.Number _ => true
  | _ => false

/-- Embeds `Value::is_array`. -/
def Value.is_array : Value → Bool
  | Value.Array _ => true
  | _ => false

/-- Embeds `Value::is_object`. -/
def Value.is_object : Value → Bool
  | Value.Object _ => true
  | _ => false

/-- Embeds `Value::is_bool`. -/
def Value.is_bool : Value → Bool
  | Value.Boolean _ => true
  | _ => false

/-- Embeds `Value::is_null`. -/
def Value.is_null : Value → Bool
  | Value.Null => true
  | _ => false

/-- Embeds `Value::as_str` (src/value.rs lines 97-107). -/
def Value.as_str : Value → Str
  | Value.String s => s
  | Value.Number number => number.as_str
  | Value.Boolean true => "true"
  | Value.Boolean false => "false"
  | Value.Object s => s
  | Value.Array s => s
  | Value.Null => "null"

/-- Embeds `Value::to_f64` (src/value.rs lines 109-116); the match arms
appear in source order, so `Boolean(false)`, `Object`, `Array` and `Null`
fall through to the default `0.0`. -/
def Value.to_f64 {F64 : Type} (E : Externals F64) : Value → F64
  | Value.Number number => E.num_to_f64 number
  | Value.Boolean true => E.f64_lit_one
  | Value.String s => E.num_to_f64 (Number.fromBytes s)
  | _ => E.f64_lit_zero

/-- Embeds `Value::to_u64` (src/value.rs lines 118-125). -/
def Value.to_u64 {F64 : Type} (E : Externals F64) : Value → Nat
  | Value.Number number => E.num_to_u64 number
  | Value.Boolean true => 1
  | Value.String s => E.num_to_u64 (Number.fromBytes s)
  | _ => 0

/-- Embeds `Value::to_i64` (src/value.rs lines 127-134). -/
def Value.to_i64 {F64 : Type} (E : Externals F64) : Value → Int
  | Value.Number number => E.num_to_i64 number
  | Value.Boolean true => 1
  | Value.String s => E.num_to_i64 (Number.fromBytes s)
  | _ => 0

/-- Embeds `Value::to_bool` (src/value.rs lines 136-141). -/
def Value.to_bool : Value → Bool
  | Value.Boolean b => b
  | _ => false

/-- Embeds `Value::to_vec` (src/value.rs lines 143-149): `Array`
delegates to the `Getter`, `Null` yields the empty sequence, everything
else yields a one-element sequence holding a clone of the receiver. -/
def Value.to_vec {F64 : Type} (E : Externals F64) (val : Value) : List Value :=
  match val with
  | Value.Array s => E.getter_to_vec s
  | Value.Null => []
  | _ => [val]

/-- Embeds `Value::to_object` (src/value.rs lines 151-156): `Object`
delegates to the `Getter`, everything else yields the empty mapping. -/
def Value.to_object {F64 : Type} (E : Externals F64) (val : Value) :
    List (Str × Value) :=
  match val with
  | Value.Object s => E.getter_to_object s
  | _ => []

/-- Embeds `impl PartialEq<&str> for Value` (src/value.rs lines 159-163). -/
def Value.eq_str (val : Value) (other : Str) : Bool :=
  Value.as_str val == other

/-- Embeds `impl PartialEq<f64> for Value` (src/value.rs lines 165-169). -/
def Value.eq_f64 {F64 : Type} (E : Externals F64) (val : Value)
    (other : F64) : Bool :=
  E.f64_beq (Value.to_f64 E val) other

/-- Embeds the derived `PartialEq` of `Value` (the `derive` on lines
9-23): same variant and equal payloads, where the `Number` payload is
compared by the external `Number` equality `nbeq`. -/
def Value.beq (nbeq : NumberHandle → NumberHandle → Bool) : Value → Value → Bool
  | Value.String s1, Value.String s2 => s1 == s2
  | Value.Number n1, Value.Number n2 => nbeq n1 n2
  | Value.Object s1, Value.Object s2 => s1 == s2
  | Value.Array s1, Value.Array s2 => s1 == s2
  | Value.Boolean b1, Value.Boolean b2 => b1 == b2
  | Value.Null, Value.Null => true
  | _, _ => false

/-- Embeds the `Display` rendering (src/value.rs lines 34-38): the text
written is `as_str`. -/
def Value.display_fmt (val : Value) : Str :=
  Value.as_str val

/-- Embeds the `Debug` rendering (src/value.rs lines 25-32): `String`
values are written as `as_str` wrapped in double quotes, every other
variant as `as_str` itself. -/
def Value.debug_fmt (val : Value) : Str :=
  match val with
  | Value.String _ => "\"" ++ Value.as_str val ++ "\""
  | _ => Value.as_str val

/-- A concrete instantiation of the external collaborators, used by the
witnesses to evaluate the parametric theorems on closed inputs: `f64` is
modelled by `Int` with `0.0 = 0` and `1.0 = 1`, the `Number` decodings
all yield zero, and the `Getter` finds nothing and decodes empty
collections. -/
def intExternals : Externals Int :=
  ⟨fun _ => 0, fun _ => 0, fun _ => 0, 0, 1, fun a b => a == b,
   fun _ _ => none, fun _ => [], fun _ => []⟩

/-- C1: for every path, `get` returns `None` on `String`, `Number`,
`Boolean` and `Null` receivers; on `Object(s)` and `Array(s)` it returns
exactly what a `Getter` constructed over the stored span `s` returns for
the raw bytes of the path. -/
theorem c1_get_dispatch : ∀ (F64 : Type) (E : Externals F64) (path : String),
    (∀ s, Value.get E (Value.String s) path = none) ∧
    (∀ n, Value.get E (Value.Number n) path = none) ∧
    (∀ b, Value.get E (Value.Boolean b) path = none) ∧
    Value.get E Value.Null path = none ∧
    (∀ s, Value.get E (Value.Object s) path = E.getter_get s (strBytes path)) ∧
    (∀ s, Value.get E (Value.Array s) path = E.getter_get s (strBytes path)) :=
  fun _ _ _ =>
    ⟨fun _ => rfl, fun _ => rfl, fun _ => rfl, rfl, fun _ => rfl, fun _ => rfl⟩

/-- C2: `Boolean(true)` converts to `1.0` / `1` / `1` / `true`, and
`Boolean(false)` converts to `0.0` / `0` / `0` / `false`, under
`to_f64` / `to_u64` / `to_i64` / `to_bool` respectively. -/
theorem c2_boolean_conversions : ∀ (F64 : Type) (E : Externals F64),
    Value.to_f64 E (Value.Boolean true) = E.f64_lit_one ∧
    Value.to_u64 E (Value.Boolean true) = 1 ∧
    Value.to_i64 E (Value.Boolean true) = 1 ∧
    Value.to_bool (Value.Boolean true) = true ∧
    Value.to_f64 E (Value.Boolean false) = E.f64_lit_zero ∧
    Value.to_u64 E (Value.Boolean false) = 0 ∧
    Value.to_i64 E (Value.Boolean false) = 0 ∧
    Value.to_bool (Value.Boolean false) = false :=
  fun _ _ => ⟨rfl, rfl, rfl, rfl, rfl, rfl, rfl, rfl⟩

/-- C3: `Object`, `Array` and `Null` all convert to the zero default
under `to_f64` / `to_u64` / `to_i64`, and `String`, `Object`, `Array`
and `Null` all convert to `false` under `to_bool`.  Totality of the four
conversions is captured by the embedding itself: each is a total Lean
function into its declared type, mirroring the total Rust signatures. -/
theorem c3_default_conversions : ∀ (F64 : Type) (E : Externals F64),
    (∀ s, Value.to_f64 E (Value.Object s) = E.f64_lit_zero ∧
      Value.to_u64 E (Value.Object s) = 0 ∧
      Value.to_i64 E (Value.Object s) = 0) ∧
    (∀ s, Value.to_f64 E (Value.Array s) = E.f64_lit_zero ∧
      Value.to_u64 E (Value.Array s) = 0 ∧
      Value.to_i64 E (Value.Array s) = 0) ∧
    (Value.to_f64 E Value.Null = E.f64_lit_zero ∧
      Value.to_u64 E Value.Null = 0 ∧
      Value.to_i64 E Value.Null = 0) ∧
    (∀ s, Value.to_bool (Value.String s) = false) ∧
    (∀ s, Value.to_bool (Value.Object s) = false) ∧
    (∀ s, Value.to_bool (Value.Array s) = false) ∧
    Value.to_bool Value.Null = false :=
  fun _ _ =>
    ⟨fun _ => ⟨rfl, rfl, rfl⟩, fun _ => ⟨rfl, rfl, rfl⟩, ⟨rfl, rfl, rfl⟩,
     fun _ => rfl, fun _ => rfl, fun _ => rfl, rfl⟩

/-- C4: `as_str` returns the stored text for `String`, the original
literal text (via `Number::as_str`) for `Number`, the exact texts
`true` / `false` for booleans, the stored raw span for `Object` and
`Array`, and the exact text `null` for `Null`. -/
theorem c4_as_str :
    (∀ s, Value.as_str (Value.String s) = s) ∧
    (∀ n, Value.as_str (Value.Number n) = Number.as_str n) ∧
    Value.as_str (Value.Boolean true) = "true" ∧
    Value.as_str (Value.Boolean false) = "false" ∧
    (∀ s, Value.as_str (Value.Object s) = s) ∧
    (∀ s, Value.as_str (Value.Array s) = s) ∧
    Value.as_str Value.Null = "null" :=
  ⟨fun _ => rfl, fun _ => rfl, rfl, rfl, fun _ => rfl, fun _ => rfl, rfl⟩

/-- C5: `to_vec` yields the empty sequence on `Null`, the sequence the
`Getter` decodes from the span on `Array(s)`, and a one-element sequence
holding the receiver itself on every other variant; `to_object` yields
the `Getter`-decoded mapping on `Object(s)` and the empty mapping on
every other variant. -/
theorem c5_collection_conversions : ∀ (F64 : Type) (E : Externals F64),
    Value.to_vec E Value.Null = [] ∧
    (∀ s, Value.to_vec E (Value.Array s) = E.getter_to_vec s) ∧
    (∀ s, Value.to_vec E (Value.String s) = [Value.String s]) ∧
    (∀ n, Value.to_vec E (Value.Number n) = [Value.Number n]) ∧
    (∀ s, Value.to_vec E (Value.Object s) = [Value.Object s]) ∧
    (∀ b, Value.to_vec E (Value.Boolean b) = [Value.Boolean b]) ∧
    (∀ s, Value.to_object E (Value.Object s) = E.getter_to_object s) ∧
    (∀ s, Value.to_object E (Value.String s) = []) ∧
    (∀ n, Value.to_object E (Value.Number n) = []) ∧
    (∀ s, Value.to_object E (Value.Array s) = []) ∧
    (∀ b, Value.to_object E (Value.Boolean b) = []) ∧
    Value.to_object E Value.Null = [] :=
  fun _ _ =>
    ⟨rfl, fun _ => rfl, fun _ => rfl, fun _ => rfl, fun _ => rfl,
     fun _ => rfl, fun _ => rfl, fun _ => rfl, fun _ => rfl, fun _ => rfl,
     fun _ => rfl, rfl⟩

/-- C6: for every string `s`, the value `String(s)` converts exactly as
the value `Number(Number::from(bytes of s))` does, under each of
`to_f64`, `to_u64` and `to_i64`: the `String` arm re-parses the raw
bytes through the same `Number` component. -/
theorem c6_string_number_agree : ∀ (F64 : Type) (E : Externals F64) (s : String),
    Value.to_f64 E (Value.String s) = E.num_to_f64 (Number.fromBytes s) ∧
    Value.to_f64 E (Value.String s)
      = Value.to_f64 E (Value.Number (Number.fromBytes s)) ∧
    Value.to_u64 E (Value.String s)
      = Value.to_u64 E (Value.Number (Number.fromBytes s)) ∧
    Value.to_i64 E (Value.String s)
      = Value.to_i64 E (Value.Number (Number.fromBytes s)) :=
  fun _ _ _ => ⟨rfl, rfl, rfl, rfl⟩

/-- C7: the cross-type comparison of a `Value` against a string holds
exactly when `as_str` of the value equals that string; in particular the
`Number` built from the text `3` compares equal to the string `3`, and
`Boolean(true)` compares equal to the string `true`. -/
theorem c7_eq_str :
    (∀ (val : Value) (t : String), Value.eq_str val t = true ↔ Value.as_str val = t) ∧
    Value.eq_str (Value.Number (Number.fromBytes "3")) "3" = true ∧
    Value.eq_str (Value.Boolean true) "true" = true :=
  ⟨fun val t => by simp [Value.eq_str], by decide, by decide⟩

/-- C8: the `Display` text of every `Value` is exactly `as_str`; the
`Debug` text agrees with `Display` on every variant except `String`, for
which it wraps the `as_str` text in double quotes, as the concrete
instance at the text `ajson` shows. -/
theorem c8_formatting :
    (∀ val : Value, Value.display_fmt val = Value.as_str val) ∧
    (∀ s, Value.debug_fmt (Value.String s) = "\"" ++ Value.as_str (Value.String s) ++ "\"") ∧
    (∀ n, Value.debug_fmt (Value.Number n) = Value.display_fmt (Value.Number n)) ∧
    (∀ s, Value.debug_fmt (Value.Object s) = Value.display_fmt (Value.Object s)) ∧
    (∀ s, Value.debug_fmt (Value.Array s) = Value.display_fmt (Value.Array s)) ∧
    (∀ b, Value.debug_fmt (Value.Boolean b) = Value.display_fmt (Value.Boolean b)) ∧
    Value.debug_fmt Value.Null = Value.display_fmt Value.Null ∧
    Value.debug_fmt (Value.String "ajson") = "\"ajson\"" ∧
    Value.display_fmt (Value.String "ajson") = "ajson" :=
  ⟨fun _ => rfl, fun _ => rfl, fun _ => rfl, fun _ => rfl, fun _ => rfl,
   fun _ => rfl, rfl, by decide, rfl⟩

/-- C9: under the `Value == f64` overload, which compares `to_f64` of the
receiver against the float, every `Value` whose `to_f64` is the literal
`0.0` compares equal to `0.0` — in particular `Null`, `Boolean(false)`,
and every `Object(s)` and `Array(s)` regardless of the span contents —
given the IEEE fact that `0.0 == 0.0` holds on `f64`. -/
theorem c9_eq_f64_zero : ∀ (F64 : Type) (E : Externals F64),
    E.f64_beq E.f64_lit_zero E.f64_lit_zero = true →
    (∀ val : Value, Value.to_f64 E val = E.f64_lit_zero →
      Value.eq_f64 E val E.f64_lit_zero = true) ∧
    Value.eq_f64 E Value.Null E.f64_lit_zero = true ∧
    Value.eq_f64 E (Value.Boolean false) E.f64_lit_zero = true ∧
    (∀ s, Value.eq_f64 E (Value.Object s) E.f64_lit_zero = true) ∧
    (∀ s, Value.eq_f64 E (Value.Array s) E.f64_lit_zero = true) :=
  fun _ E h =>
    ⟨fun val hv => by
        unfold Value.eq_f64
        rw [hv]
        exact h,
     h, h, fun _ => h, fun _ => h⟩

/-- C9 witness: the theorem evaluated at the concrete `Int` model of the
externals, where the hypothesis `0 == 0` is discharged by computation. -/
theorem c9_eq_f64_zero_witness :
    Value.eq_f64 intExternals Value.Null intExternals.f64_lit_zero = true ∧
    Value.eq_f64 intExternals (Value.Boolean false) intExternals.f64_lit_zero = true ∧
    Value.eq_f64 intExternals (Value.Object "[1,2]") intExternals.f64_lit_zero = true :=
  ⟨(c9_eq_f64_zero Int intExternals (by decide)).2.1,
   (c9_eq_f64_zero Int intExternals (by decide)).2.2.1,
   (c9_eq_f64_zero Int intExternals (by decide)).2.2.2.1 "[1,2]"⟩

/-- C10: the derived `Value`-to-`Value` equality on composite variants is
raw-text equality of the stored spans — `Object(s1)` equals `Object(s2)`
exactly when `s1 = s2`, likewise for `Array` — and `Object(s)` never
equals `Array(s)` in either direction, even for identical text `s`. -/
theorem c10_derived_eq_raw_text : ∀ (nbeq : Number → Number → Bool),
    (∀ s1 s2, (Value.beq nbeq (Value.Object s1) (Value.Object s2) = true ↔ s1 = s2)) ∧
    (∀ s1 s2, (Value.beq nbeq (Value.Array s1) (Value.Array s2) = true ↔ s1 = s2)) ∧
    (∀ s, Value.beq nbeq (Value.Object s) (Value.Array s) = false) ∧
    (∀ s, Value.beq nbeq (Value.Array s) (Value.Object s) = false) :=
  fun nbeq =>
    ⟨fun s1 s2 => by simp [Value.beq],
     fun s1 s2 => by simp [Value.beq],
     fun _ => rfl, fun _ => rfl⟩
